import Mathlib

/-!
Shallow embedding of the NJU3711 non-blocking serial-to-parallel driver
(NJU3711.cpp / NJU3711.h) and of the 3-digit multiplexing layer
(NJU3711_7Segment.cpp, NJU3711_7Segment_Multi.cpp).

Modelling conventions:
* 8-bit quantities are Nat values; truncations performed by the C code
  (uint8_t arithmetic) are written explicitly with % 256 or ^^^ 255.
* The Arduino micros() clock is passed in as an explicit argument now : Nat
  of every step function.  The C code computes elapsed time with unsigned
  32-bit wraparound subtraction; the spec stipulates the clock must not wrap
  within any plausible operation duration, so elapsed time is modelled as
  truncated Nat subtraction now - last (equal to the C value whenever
  last is at most now and the difference fits in 32 bits).
* digitalWrite on the four dedicated pins is modelled by four Bool fields
  recording the level of each pin (true = HIGH).
* The function-local static flags latchStep / clearStep of
  processStateMachine are modelled as fields of the engine record (the
  source has a single engine instance per pin set; the spec's design notes
  call for exactly this explicit-state representation).
-/

/-- Operation states for the state machine (enum NJU3711_State). -/
inductive NJU3711_State where
  | NJU3711_IDLE
  | NJU3711_SHIFTING
  | NJU3711_LATCHING
  | NJU3711_CLEARING
  | NJU3711_TEST_PATTERN
deriving DecidableEq, Repr, Inhabited

/-- Operation types (enum NJU3711_Operation). -/
inductive NJU3711_Operation where
  | NJU3711_OP_WRITE
  | NJU3711_OP_SHIFT_ONLY
  | NJU3711_OP_LATCH_ONLY
  | NJU3711_OP_CLEAR
  | NJU3711_OP_TEST_PATTERN
deriving DecidableEq, Repr, Inhabited

open NJU3711_State NJU3711_Operation

/-- One entry of the operation queue (struct OperationQueue). -/
structure QEntry where
  operation : NJU3711_Operation
  data : Nat
  valid : Bool
deriving DecidableEq, Repr, Inhabited

/-- The state of one NJU3711 driver instance: the private members of class
NJU3711 together with the levels of the four GPIO lines it drives and the
two function-local static pulse-phase flags. -/
structure NJU3711 where
  clearPin : Nat
  currentData : Nat
  state : NJU3711_State
  currentOperation : NJU3711_Operation
  shiftData : Nat
  bitIndex : Int
  lastUpdateTime : Nat
  stepDelay : Nat
  clockState : Bool
  testPatternStep : Nat
  testPatternType : Nat
  testPatternDelay : Nat
  queue : List QEntry
  queueHead : Nat
  queueTail : Nat
  queueSize : Nat
  latchStep : Bool
  clearStep : Bool
  dataLevel : Bool
  clockLevel : Bool
  strobeLevel : Bool
  clearLevel : Bool
deriving DecidableEq, Repr, Inhabited

namespace NJU3711

/-- Constructor followed by begin(): all counters zeroed, state Idle,
step delay 1 microsecond, DATA and CLK driven low, STB high, CLR high,
lastUpdateTime initialised from the clock.  The clear() operation that
begin() also enqueues is not included here; theorems that need a queued
operation submit it explicitly. -/
def mkEngine (clearPin now : Nat) : NJU3711 where
  clearPin := clearPin
  currentData := 0
  state := NJU3711_IDLE
  currentOperation := NJU3711_OP_WRITE
  shiftData := 0
  bitIndex := 0
  lastUpdateTime := now
  stepDelay := 1
  clockState := false
  testPatternStep := 0
  testPatternType := 0
  testPatternDelay := 500000
  queue := List.replicate 8 default
  queueHead := 0
  queueTail := 0
  queueSize := 0
  latchStep := false
  clearStep := false
  dataLevel := false
  clockLevel := false
  strobeLevel := true
  clearLevel := true

/-- bool NJU3711::isBusy() -/
def isBusy (e : NJU3711) : Bool :=
  (e.state ≠ NJU3711_IDLE) || (e.queueSize > 0)

/-- uint8_t NJU3711::getCurrentData() -/
def getCurrentData (e : NJU3711) : Nat :=
  e.currentData

/-- uint8_t NJU3711::getQueueSize() -/
def getQueueSize (e : NJU3711) : Nat :=
  e.queueSize

/-- bool NJU3711::isTimingMet() : (micros() - _lastUpdateTime) >= _stepDelay -/
def isTimingMet (now : Nat) (e : NJU3711) : Bool :=
  decide (e.stepDelay ≤ now - e.lastUpdateTime)

/-- void NJU3711::updateClock(bool state) -/
def updateClock (now : Nat) (b : Bool) (e : NJU3711) : NJU3711 :=
  if e.clockState ≠ b then
    { e with clockLevel := b, clockState := b, lastUpdateTime := now }
  else e

/-- bool NJU3711::enqueueOperation(NJU3711_Operation op, uint8_t data) -/
def enqueueOperation (op : NJU3711_Operation) (data : Nat) (e : NJU3711) :
    Bool × NJU3711 :=
  if e.queueSize ≥ 8 then (false, e)
  else
    (true,
      { e with
        queue := e.queue.set e.queueTail ⟨op, data, true⟩
        queueTail := (e.queueTail + 1) % 8
        queueSize := e.queueSize + 1 })

/-- bool NJU3711::dequeueOperation(NJU3711_Operation& op, uint8_t& data) -/
def dequeueOperation (e : NJU3711) : Option (NJU3711_Operation × Nat) × NJU3711 :=
  if e.queueSize = 0 then (none, e)
  else
    let entry := e.queue.getD e.queueHead default
    (some (entry.operation, entry.data),
      { e with
        queue := e.queue.set e.queueHead { entry with valid := false }
        queueHead := (e.queueHead + 1) % 8
        queueSize := e.queueSize - 1 })

/-- void NJU3711::startOperation(NJU3711_Operation op, uint8_t data) -/
def startOperation (op : NJU3711_Operation) (data : Nat) (e : NJU3711) : NJU3711 :=
  let e1 := { e with currentOperation := op }
  match op with
  | NJU3711_OP_WRITE | NJU3711_OP_SHIFT_ONLY =>
    { e1 with
      shiftData := data
      currentData := data
      bitIndex := 7
      state := NJU3711_SHIFTING
      strobeLevel := true }
  | NJU3711_OP_LATCH_ONLY => { e1 with state := NJU3711_LATCHING }
  | NJU3711_OP_CLEAR => { e1 with state := NJU3711_CLEARING }
  | NJU3711_OP_TEST_PATTERN => e1

/-- void NJU3711::stopTestPattern() -/
def stopTestPattern (e : NJU3711) : NJU3711 :=
  if e.state = NJU3711_TEST_PATTERN then { e with state := NJU3711_IDLE } else e

/-- bool NJU3711::write(uint8_t data) -/
def write (data : Nat) (e : NJU3711) : Bool × NJU3711 :=
  let e1 := if e.state = NJU3711_TEST_PATTERN then stopTestPattern e else e
  enqueueOperation NJU3711_OP_WRITE data e1

/-- bool NJU3711::shift(uint8_t data) -/
def shift (data : Nat) (e : NJU3711) : Bool × NJU3711 :=
  let e1 := if e.state = NJU3711_TEST_PATTERN then stopTestPattern e else e
  enqueueOperation NJU3711_OP_SHIFT_ONLY data e1

/-- bool NJU3711::latch() -/
def latch (e : NJU3711) : Bool × NJU3711 :=
  let e1 := if e.state = NJU3711_TEST_PATTERN then stopTestPattern e else e
  enqueueOperation NJU3711_OP_LATCH_ONLY 0 e1

/-- bool NJU3711::clear() -/
def clear (e : NJU3711) : Bool × NJU3711 :=
  let e1 := if e.state = NJU3711_TEST_PATTERN then stopTestPattern e else e
  enqueueOperation NJU3711_OP_CLEAR 0 e1

/-- void NJU3711::processStateMachine().  The Arduino micros() value at the
moment of the call is the explicit argument now. -/
def processStateMachine (now : Nat) (e : NJU3711) : NJU3711 :=
  if isTimingMet now e then
    match e.state with
    | NJU3711_IDLE =>
      match dequeueOperation e with
      | (some (op, data), e1) => startOperation op data e1
      | (none, e1) => e1
    | NJU3711_SHIFTING =>
      if e.clockState = false then
        let bitValue := Nat.testBit e.shiftData e.bitIndex.toNat
        updateClock now true { e with dataLevel := bitValue }
      else
        let e1 := updateClock now false e
        let e2 := { e1 with bitIndex := e1.bitIndex - 1 }
        if e2.bitIndex < 0 then
          if e2.currentOperation = NJU3711_OP_WRITE then
            { e2 with state := NJU3711_LATCHING }
          else
            { e2 with state := NJU3711_IDLE }
        else e2
    | NJU3711_LATCHING =>
      if e.latchStep = false then
        { e with strobeLevel := false, latchStep := true, lastUpdateTime := now }
      else
        { e with strobeLevel := true, latchStep := false, state := NJU3711_IDLE }
    | NJU3711_CLEARING =>
      if e.clearPin ≠ 255 then
        if e.clearStep = false then
          { e with clearLevel := false, clearStep := true, lastUpdateTime := now }
        else
          { e with clearLevel := true, clearStep := false, currentData := 0,
                   state := NJU3711_IDLE }
      else
        let p := enqueueOperation NJU3711_OP_WRITE 0 e
        let e1 := if p.1 then { p.2 with currentData := 0 } else p.2
        { e1 with state := NJU3711_IDLE }
    | NJU3711_TEST_PATTERN =>
      if e.testPatternDelay ≤ now - e.lastUpdateTime then
        let e1 :=
          match e.testPatternType with
          | 1 =>
            let e2 := (write (if e.testPatternStep ≠ 0 then 255 else 0) e).2
            { e2 with testPatternStep := if e.testPatternStep ≠ 0 then 0 else 1 }
          | 2 =>
            let e2 := (write (if e.testPatternStep ≠ 0 then 170 else 85) e).2
            { e2 with testPatternStep := if e.testPatternStep ≠ 0 then 0 else 1 }
          | 3 =>
            let e2 := (write (1 <<< (e.testPatternStep % 8)) e).2
            { e2 with testPatternStep := (e.testPatternStep + 1) % 256 }
          | 4 =>
            let e2 := (write e.testPatternStep e).2
            { e2 with testPatternStep := (e.testPatternStep + 1) % 256 }
          | _ => e
        { e1 with lastUpdateTime := now }
      else e
  else e

/-- void NJU3711::update() -/
def update (now : Nat) (e : NJU3711) : NJU3711 :=
  processStateMachine now e

end NJU3711

/-- Run the protocol state machine once per element of the schedule ts,
each element being the micros() value at that call. -/
def runSched : List Nat → NJU3711 → NJU3711
  | [], e => e
  | t :: ts, e => runSched ts (NJU3711.processStateMachine t e)

/-- Every call of the schedule finds the inter-step timing gate open. -/
def AllEligible : List Nat → NJU3711 → Prop
  | [], _ => True
  | t :: ts, e =>
    NJU3711.isTimingMet t e = true ∧ AllEligible ts (NJU3711.processStateMachine t e)

instance instDecidableAllEligible : (ts : List Nat) → (e : NJU3711) →
    Decidable (AllEligible ts e)
  | [], _ => .isTrue trivial
  | t :: ts, e =>
    have : Decidable (AllEligible ts (NJU3711.processStateMachine t e)) :=
      instDecidableAllEligible ts _
    inferInstanceAs (Decidable (_ ∧ _))

/-- Call times that are spaced at least d apart, the first one at least d
after the reference instant prev. -/
def Spaced (d : Nat) : Nat → List Nat → Prop
  | _, [] => True
  | prev, t :: ts => prev + d ≤ t ∧ Spaced d t ts

instance instDecidableSpaced (d : Nat) : (prev : Nat) → (ts : List Nat) →
    Decidable (Spaced d prev ts)
  | _, [] => .isTrue trivial
  | prev, t :: ts =>
    have : Decidable (Spaced d t ts) := instDecidableSpaced d t ts
    inferInstanceAs (Decidable (_ ∧ _))

/-- Display modes of the 7-segment layer (enum DisplayMode). -/
inductive DisplayMode where
  | ACTIVE_LOW
  | ACTIVE_HIGH
deriving DecidableEq, Repr, Inhabited

/-- Animation types of the 7-segment layer (enum AnimationType). -/
inductive AnimationType where
  | ANIM_ROTATE_CW
  | ANIM_ROTATE_CCW
  | ANIM_BLINK
  | ANIM_FADE
  | ANIM_CHASE
  | ANIM_LOADING
deriving DecidableEq, Repr, Inhabited

/-- Multiplexing states of the 3-digit layer (enum MultiplexState). -/
inductive MultiplexState where
  | MPLEX_IDLE
  | MPLEX_TURN_OFF_DIGITS
  | MPLEX_WAIT_BLANKING
  | MPLEX_WRITE_DATA
  | MPLEX_WAIT_DATA
  | MPLEX_TURN_ON_DIGIT
  | MPLEX_DISPLAY_DIGIT
deriving DecidableEq, Repr, Inhabited

open DisplayMode AnimationType MultiplexState

/-- const uint8_t DIGIT_PATTERNS[] for digits 0-9 (NJU3711_7Segment.cpp). -/
def DIGIT_PATTERNS : List Nat :=
  [0b11101110, 0b00100100, 0b10111010, 0b10110110, 0b01110100,
   0b11010110, 0b11011110, 0b10100100, 0b11111110, 0b11110110]

/-- State of one NJU3711_7Segment_Multi instance: the embedded base driver,
the NJU3711_7Segment members, the NJU3711_7Segment_Multi members, and the
levels of the three digit-select lines (true = HIGH = transistor off). -/
structure MEngine where
  base : NJU3711
  displayMode : DisplayMode
  decimalPointState : Bool
  animationActive : Bool
  currentAnimation : AnimationType
  animationDelay : Nat
  lastAnimationUpdate : Nat
  animationStep : Nat
  animationValue : Nat
  digitLevels : List Bool
  digitData : List Nat
  digitDP : List Bool
  digitEnabled : List Bool
  mplexState : MultiplexState
  currentDigit : Nat
  nextDigit : Nat
  lastMultiplexTime : Nat
  lastStateTime : Nat
  multiplexDelay : Nat
  blankingTime : Nat
  multiplexEnabled : Bool
  displayValue : Nat
  leadingZeros : Bool
  blankOnZero : Bool
deriving DecidableEq, Repr, Inhabited

namespace MEngine

/-- Multi constructor followed by begin(): base driver initialised, digit
select lines all HIGH (off), multiplexing enabled with the default 2000 us
digit period and 50 us blanking time, all three digit slots enabled with
pattern 0. -/
def mkMulti (clearPin now : Nat) : MEngine where
  base := NJU3711.mkEngine clearPin now
  displayMode := ACTIVE_LOW
  decimalPointState := false
  animationActive := false
  currentAnimation := ANIM_ROTATE_CW
  animationDelay := 100000
  lastAnimationUpdate := 0
  animationStep := 0
  animationValue := 0
  digitLevels := [true, true, true]
  digitData := [0, 0, 0]
  digitDP := [false, false, false]
  digitEnabled := [true, true, true]
  mplexState := MPLEX_IDLE
  currentDigit := 0
  nextDigit := 0
  lastMultiplexTime := now
  lastStateTime := 0
  multiplexDelay := 2000
  blankingTime := 50
  multiplexEnabled := true
  displayValue := 0
  leadingZeros := false
  blankOnZero := false

/-- uint8_t NJU3711_7Segment::applyDisplayMode(uint8_t segmentData): the
uint8_t bitwise complement in ACTIVE_LOW mode (arguments are bytes). -/
def applyDisplayMode (m : MEngine) (segmentData : Nat) : Nat :=
  if m.displayMode = ACTIVE_LOW then segmentData ^^^ 255 else segmentData

/-- uint8_t NJU3711_7Segment::getDigitPattern(uint8_t digit) -/
def getDigitPattern (digit : Nat) : Nat :=
  if digit > 9 then 0 else DIGIT_PATTERNS.getD digit 0

/-- NJU3711::write invoked on the embedded base driver. -/
def writeBase (data : Nat) (m : MEngine) : Bool × MEngine :=
  let p := NJU3711.write data m.base
  (p.1, { m with base := p.2 })

/-- bool NJU3711_7Segment::displayDigit(uint8_t digit, bool showDP) -/
def displayDigit (digit : Nat) (showDP : Bool) (m : MEngine) : Bool × MEngine :=
  let m1 := if m.animationActive then { m with animationActive := false } else m
  let pattern := getDigitPattern digit
  let pattern := if showDP then pattern ||| 1 else pattern
  let m2 := { m1 with decimalPointState := showDP }
  writeBase (applyDisplayMode m2 pattern) m2

/-- bool NJU3711_7Segment::displayBlank() -/
def displayBlank (m : MEngine) : Bool × MEngine :=
  let m1 := if m.animationActive then { m with animationActive := false } else m
  let m2 := { m1 with decimalPointState := false }
  writeBase (applyDisplayMode m2 0) m2

/-- Segment index array {SEG_A, SEG_B, SEG_C, SEG_D, SEG_E, SEG_F} used by
the clockwise, chase and loading animations. -/
def SEG_ORDER_CW : List Nat := [7, 5, 2, 1, 3, 6]

/-- Segment index array {SEG_A, SEG_F, SEG_E, SEG_D, SEG_C, SEG_B} used by
the counter-clockwise animation. -/
def SEG_ORDER_CCW : List Nat := [7, 6, 3, 1, 2, 5]

/-- void NJU3711_7Segment::processAnimation() -/
def processAnimation (now : Nat) (m : MEngine) : MEngine :=
  if m.animationActive = false then m
  else if now - m.lastAnimationUpdate < m.animationDelay then m
  else
    let m1 :=
      match m.currentAnimation with
      | ANIM_ROTATE_CW =>
        let pattern := 1 <<< (SEG_ORDER_CW.getD (m.animationStep % 6) 0)
        let m2 := (writeBase (applyDisplayMode m pattern) m).2
        { m2 with animationStep := (m2.animationStep + 1) % 256 }
      | ANIM_ROTATE_CCW =>
        let pattern := 1 <<< (SEG_ORDER_CCW.getD (m.animationStep % 6) 0)
        let m2 := (writeBase (applyDisplayMode m pattern) m).2
        { m2 with animationStep := (m2.animationStep + 1) % 256 }
      | ANIM_BLINK =>
        let m2 :=
          if m.animationStep % 2 = 0 then (displayDigit m.animationValue false m).2
          else (displayBlank m).2
        { m2 with animationStep := (m2.animationStep + 1) % 256 }
      | ANIM_CHASE =>
        let pattern :=
          (List.range 3).foldl
            (fun acc i => acc ||| (1 <<< (SEG_ORDER_CW.getD ((m.animationStep + i) % 6) 0))) 0
        let m2 := (writeBase (applyDisplayMode m pattern) m).2
        { m2 with animationStep := (m2.animationStep + 1) % 256 }
      | ANIM_LOADING =>
        let pattern :=
          (List.range (m.animationStep % 7 + 1)).foldl
            (fun acc i =>
              if i < 6 then acc ||| (1 <<< (SEG_ORDER_CW.getD i 0)) else acc) 0
        let m2 := (writeBase (applyDisplayMode m pattern) m).2
        let m3 := { m2 with animationStep := (m2.animationStep + 1) % 256 }
        if m3.animationStep ≥ 12 then { m3 with animationStep := 0 } else m3
      | ANIM_FADE => m
    { m1 with lastAnimationUpdate := now }

/-- void NJU3711_7Segment_Multi::selectDigit(uint8_t digit): drive the
digit's select line LOW (transistor on). -/
def selectDigit (digit : Nat) (m : MEngine) : MEngine :=
  if digit < 3 then { m with digitLevels := m.digitLevels.set digit false } else m

/-- void NJU3711_7Segment_Multi::deselectAllDigits(): drive the three
select lines HIGH (transistors off). -/
def deselectAllDigits (m : MEngine) : MEngine :=
  { m with digitLevels := ((m.digitLevels.set 0 true).set 1 true).set 2 true }

/-- void NJU3711_7Segment_Multi::multiplexDisplay() -/
def multiplexDisplay (now : Nat) (m : MEngine) : MEngine :=
  match m.mplexState with
  | MPLEX_IDLE =>
    if m.multiplexDelay ≤ now - m.lastMultiplexTime then
      { m with mplexState := MPLEX_TURN_OFF_DIGITS, lastStateTime := now }
    else m
  | MPLEX_TURN_OFF_DIGITS =>
    { deselectAllDigits m with mplexState := MPLEX_WAIT_BLANKING, lastStateTime := now }
  | MPLEX_WAIT_BLANKING =>
    if m.blankingTime ≤ now - m.lastStateTime then
      { m with nextDigit := (m.currentDigit + 1) % 3, mplexState := MPLEX_WRITE_DATA }
    else m
  | MPLEX_WRITE_DATA =>
    if NJU3711.isBusy m.base = false then
      let pattern :=
        if m.digitEnabled.getD m.nextDigit false then
          let p := m.digitData.getD m.nextDigit 0
          if m.digitDP.getD m.nextDigit false then p ||| 1 else p
        else 0
      let pattern := applyDisplayMode m pattern
      let m1 := (writeBase pattern m).2
      { m1 with mplexState := MPLEX_WAIT_DATA, lastStateTime := now }
    else m
  | MPLEX_WAIT_DATA =>
    if NJU3711.isBusy m.base = false then
      if 10 ≤ now - m.lastStateTime then
        { m with mplexState := MPLEX_TURN_ON_DIGIT }
      else m
    else m
  | MPLEX_TURN_ON_DIGIT =>
    { selectDigit m.nextDigit m with
      currentDigit := m.nextDigit
      mplexState := MPLEX_DISPLAY_DIGIT
      lastMultiplexTime := now }
  | MPLEX_DISPLAY_DIGIT =>
    { m with mplexState := MPLEX_IDLE }

/-- void NJU3711_7Segment_Multi::update(): the base protocol step, then
animation processing, then one multiplex phase when the protocol engine is
idle and multiplexing is enabled. -/
def update (now : Nat) (m : MEngine) : MEngine :=
  let m1 := { m with base := NJU3711.processStateMachine now m.base }
  let m2 := if m1.animationActive then processAnimation now m1 else m1
  if m2.multiplexEnabled && !(NJU3711.isBusy m2.base) then multiplexDisplay now m2 else m2

/-- bool NJU3711_7Segment_Multi::setDigitRaw(uint8_t position,
uint8_t segments, bool showDP) -/
def setDigitRaw (position segments : Nat) (showDP : Bool) (m : MEngine) :
    Bool × MEngine :=
  if position ≥ 3 then (false, m)
  else
    (true,
      { m with
        digitData := m.digitData.set position segments
        digitDP := m.digitDP.set position showDP
        digitEnabled := m.digitEnabled.set position true })

end MEngine

/-- True when at most one of the three digit-select lines is at its active
(LOW) level. -/
def atMostOneActive (m : MEngine) : Bool :=
  (m.digitLevels.filter (fun b => !b)).length ≤ 1

/-- Digits whose select line goes from inactive (HIGH) to active (LOW)
between two engine states. -/
def newlySelected (before after : MEngine) : List Nat :=
  (List.range 3).filter
    (fun j => before.digitLevels.getD j true && !(after.digitLevels.getD j true))

/-- Run n multiplexed update calls at times s*k, s*(k+1), ..., recording
whether the at-most-one-select-line-active invariant held at every state of
the run and the list of digit selections in the order they happened. -/
def mplexTrace (s : Nat) : Nat → Nat → MEngine → Bool × List Nat
  | _, 0, m => (atMostOneActive m, [])
  | k, n + 1, m =>
    let m2 := MEngine.update (s * k) m
    let r := mplexTrace s (k + 1) n m2
    (atMostOneActive m && r.1, newlySelected m m2 ++ r.2)

/-- Final state of the same run (for completeness checks). -/
def mplexRun (s : Nat) : Nat → Nat → MEngine → MEngine
  | _, 0, m => m
  | k, n + 1, m => mplexRun s (k + 1) n (MEngine.update (s * k) m)

/-- Protocol engine idle with an empty, well-formed queue, clock line low,
strobe high, and both pulse-phase flags clear: the quiescent configuration
reached after begin() once all queued operations have drained. -/
structure IdleEmpty (e : NJU3711) : Prop where
  state : e.state = NJU3711_IDLE
  qsize : e.queueSize = 0
  qhead : e.queueHead < 8
  qtail : e.queueTail = e.queueHead
  qlen : e.queue.length = 8
  clock : e.clockState = false
  lstep : e.latchStep = false
  cstep : e.clearStep = false
  strobe : e.strobeLevel = true

/-- Protocol engine idle with exactly one operation (op, v) at the head of
the queue, otherwise quiescent as in IdleEmpty. -/
structure IdleQueued (op : NJU3711_Operation) (v : Nat) (e : NJU3711) : Prop where
  state : e.state = NJU3711_IDLE
  qsize : e.queueSize = 1
  qhead : e.queueHead < 8
  qtail : e.queueTail = (e.queueHead + 1) % 8
  qlen : e.queue.length = 8
  entry : e.queue.getD e.queueHead default = ⟨op, v, true⟩
  clock : e.clockState = false
  lstep : e.latchStep = false
  cstep : e.clearStep = false
  strobe : e.strobeLevel = true

/-- Protocol engine mid-shift: executing operation op with shift byte v,
bit index i, clock line in phase c, queue drained. -/
structure Shifting (op : NJU3711_Operation) (v : Nat) (i : Nat) (c : Bool)
    (e : NJU3711) : Prop where
  state : e.state = NJU3711_SHIFTING
  cop : e.currentOperation = op
  sdata : e.shiftData = v
  cdata : e.currentData = v
  bidx : e.bitIndex = (i : Int)
  clock : e.clockState = c
  qsize : e.queueSize = 0
  qhead : e.queueHead < 8
  qtail : e.queueTail = e.queueHead
  qlen : e.queue.length = 8
  lstep : e.latchStep = false
  cstep : e.clearStep = false
  strobe : e.strobeLevel = true

/-- Protocol engine latching: strobe pulse in phase ls (false: strobe still
high, pulse not begun; true: strobe driven low), stored data v, queue
drained. -/
structure Latching (v : Nat) (ls : Bool) (e : NJU3711) : Prop where
  state : e.state = NJU3711_LATCHING
  cdata : e.currentData = v
  lstep : e.latchStep = ls
  strobe : e.strobeLevel = !ls
  qsize : e.queueSize = 0
  qhead : e.queueHead < 8
  qtail : e.queueTail = e.queueHead
  qlen : e.queue.length = 8
  clock : e.clockState = false
  cstep : e.clearStep = false

/-- Protocol engine clearing: clear pulse in phase cs, queue drained. -/
structure Clearing (cs : Bool) (e : NJU3711) : Prop where
  state : e.state = NJU3711_CLEARING
  cstep : e.clearStep = cs
  qsize : e.queueSize = 0
  qhead : e.queueHead < 8
  qtail : e.queueTail = e.queueHead
  qlen : e.queue.length = 8
  clock : e.clockState = false
  lstep : e.latchStep = false
  strobe : e.strobeLevel = true

/-- Well-formedness of the ring buffer: backing store of 8 cells, head in
range, at most 8 elements, tail = head + size modulo 8. -/
structure QueueWF (e : NJU3711) : Prop where
  qlen : e.queue.length = 8
  qhead : e.queueHead < 8
  qsize : e.queueSize ≤ 8
  qtail : e.queueTail = (e.queueHead + e.queueSize) % 8

/-- The FIFO list the ring buffer represents: the queueSize entries starting
at queueHead, in dequeue order, each as its (operation, payload) pair. -/
def absQueue (e : NJU3711) : List (NJU3711_Operation × Nat) :=
  (List.range e.queueSize).map (fun i =>
    ((e.queue.getD ((e.queueHead + i) % 8) default).operation,
     (e.queue.getD ((e.queueHead + i) % 8) default).data))

/-- Number of timing-eligible step calls each operation takes from dequeue
to the return to Idle: 1 dequeue-and-start step, plus 2 steps per bit for
the 8 shifted bits, plus 2 strobe-pulse steps for a full write; the clear
count depends on whether a hardware clear line is wired (clearPin 255 means
none). -/
def opStepCount (op : NJU3711_Operation) (clearPin : Nat) : Nat :=
  match op with
  | NJU3711_OP_WRITE => 1 + 2 * 8 + 2
  | NJU3711_OP_SHIFT_ONLY => 1 + 2 * 8
  | NJU3711_OP_LATCH_ONLY => 1 + 2
  | NJU3711_OP_CLEAR => if clearPin ≠ 255 then 1 + 2 else 1 + 1
  | NJU3711_OP_TEST_PATTERN => 1

/-- Schedule of n clock readings base+1, base+2, ..., base+n: consecutive
calls exactly one microsecond apart (the default minimum step interval). -/
def ticks (base n : Nat) : List Nat :=
  (List.range n).map (fun k => base + 1 + k)

/-- Concrete engine for the shift-only counterexample: hardware clear line
on pin 30, freshly initialised at time 0, with latched output value 5. -/
def engC1 : NJU3711 :=
  { NJU3711.mkEngine 30 0 with currentData := 5 }

/-- The shift-only counterexample run: submit ShiftOnly(3) to engC1 and run
the 17 steps of the operation at times 1..17 (spaced exactly the minimum
interval apart). -/
def runC1 : NJU3711 :=
  runSched (ticks 0 17) (NJU3711.shift 3 engC1).2

/-- Eight consecutive Write(0xFF) submissions to a freshly initialised
engine, for the queue-capacity scenario. -/
def eightWrites : NJU3711 :=
  (fun e => (NJU3711.write 255 e).2)^[8] (NJU3711.mkEngine 255 0)

/-- Multiplex scenario start state: the three digit slots configured with
the distinct raw patterns 36, 186, 182 (the segment patterns of 1, 2, 3)
and all enabled; the current digit is 2, so the cycle that is about to
start selects the slots in the order 0, 1, 2. -/
def multiCycleStart : MEngine :=
  { ((MEngine.setDigitRaw 2 182 false
      ((MEngine.setDigitRaw 1 186 false
        ((MEngine.setDigitRaw 0 36 false (MEngine.mkMulti 255 0)).2)).2)).2) with
    currentDigit := 2 }

/-! Helper lemmas: list cells, schedules and step-function frame facts. -/

theorem getD_set_self {α : Type} (l : List α) (i : Nat) (x d : α)
    (h : i < l.length) : (l.set i x).getD i d = x := by
  simp [List.getD_eq_getElem?_getD, List.getElem?_set_eq_of_lt, h]

theorem getD_set_ne {α : Type} (l : List α) {i j : Nat} (x d : α)
    (h : i ≠ j) : (l.set i x).getD j d = l.getD j d := by
  simp [List.getD_eq_getElem?_getD, List.getElem?_set_ne h]

theorem runSched_append (ts1 ts2 : List Nat) (e : NJU3711) :
    runSched (ts1 ++ ts2) e = runSched ts2 (runSched ts1 e) := by
  induction ts1 generalizing e with
  | nil => rfl
  | cons t ts ih => simpa [runSched] using ih (NJU3711.processStateMachine t e)

theorem allEligible_append (ts1 ts2 : List Nat) (e : NJU3711) :
    AllEligible (ts1 ++ ts2) e ↔
      AllEligible ts1 e ∧ AllEligible ts2 (runSched ts1 e) := by
  induction ts1 generalizing e with
  | nil => simp [AllEligible, runSched]
  | cons t ts ih =>
    simp [AllEligible, runSched, ih (NJU3711.processStateMachine t e), and_assoc]

theorem dequeue_frame (e : NJU3711) :
    (NJU3711.dequeueOperation e).2.stepDelay = e.stepDelay ∧
      (NJU3711.dequeueOperation e).2.lastUpdateTime = e.lastUpdateTime := by
  unfold NJU3711.dequeueOperation
  split <;> exact ⟨rfl, rfl⟩

theorem startOperation_frame (op : NJU3711_Operation) (d : Nat) (e : NJU3711) :
    (NJU3711.startOperation op d e).stepDelay = e.stepDelay ∧
      (NJU3711.startOperation op d e).lastUpdateTime = e.lastUpdateTime := by
  cases op <;> exact ⟨rfl, rfl⟩

theorem updateClock_frame (t : Nat) (b : Bool) (e : NJU3711) :
    (NJU3711.updateClock t b e).stepDelay = e.stepDelay ∧
      (e.lastUpdateTime ≤ t → (NJU3711.updateClock t b e).lastUpdateTime ≤ t) := by
  unfold NJU3711.updateClock
  split <;> exact ⟨rfl, fun _ => by simp_all⟩

theorem enqueue_frame (op : NJU3711_Operation) (d : Nat) (e : NJU3711) :
    (NJU3711.enqueueOperation op d e).2.stepDelay = e.stepDelay ∧
      (NJU3711.enqueueOperation op d e).2.lastUpdateTime = e.lastUpdateTime := by
  unfold NJU3711.enqueueOperation
  split <;> exact ⟨rfl, rfl⟩

theorem write_frame (d : Nat) (e : NJU3711) :
    (NJU3711.write d e).2.stepDelay = e.stepDelay ∧
      (NJU3711.write d e).2.lastUpdateTime = e.lastUpdateTime := by
  simp only [NJU3711.write, NJU3711.stopTestPattern, NJU3711.enqueueOperation]
  split <;> split <;> exact ⟨rfl, rfl⟩

theorem step_stepDelay (t : Nat) (e : NJU3711) :
    (NJU3711.processStateMachine t e).stepDelay = e.stepDelay := by
  simp only [NJU3711.processStateMachine]
  split
  · split
    · rcases hdq : NJU3711.dequeueOperation e with ⟨_ | ⟨op, d⟩, e1⟩
      · have h1 := (dequeue_frame e).1
        rw [hdq] at h1
        exact h1
      · have h1 := (dequeue_frame e).1
        rw [hdq] at h1
        exact (startOperation_frame op d e1).1.trans h1
    · split
      · exact (updateClock_frame t true _).1
      · have h1 := (updateClock_frame t false e).1
        split
        · split <;> simpa using h1
        · simpa using h1
    · split <;> rfl
    · split
      · split <;> rfl
      · split <;> simp [(enqueue_frame NJU3711_OP_WRITE 0 e).1]
    · split
      · split <;> simp [(write_frame _ e).1]
      · rfl
  · rfl

theorem step_lastUpdateTime_le (t : Nat) (e : NJU3711)
    (h : e.lastUpdateTime ≤ t) :
    (NJU3711.processStateMachine t e).lastUpdateTime ≤ t := by
  simp only [NJU3711.processStateMachine]
  split
  · split
    · rcases hdq : NJU3711.dequeueOperation e with ⟨_ | ⟨op, d⟩, e1⟩
      · have h1 := (dequeue_frame e).2
        rw [hdq] at h1
        simp only [] at h1 ⊢
        omega
      · have h1 := (dequeue_frame e).2
        rw [hdq] at h1
        have h2 := (startOperation_frame op d e1).2
        simp only [] at h1 h2 ⊢
        omega
    · split
      · exact (updateClock_frame t true _).2 h
      · have h1 := (updateClock_frame t false e).2 h
        split
        · split <;> simpa using h1
        · simpa using h1
    · split <;> simp <;> exact h
    · split
      · split <;> simp <;> exact h
      · split <;> simp [(enqueue_frame NJU3711_OP_WRITE 0 e).2] <;> exact h
    · split
      · split <;> simp
      · exact h
  · exact h

theorem enqueue_idleEmpty (op : NJU3711_Operation) (d : Nat) (e : NJU3711)
    (h : IdleEmpty e) :
    (NJU3711.enqueueOperation op d e).1 = true ∧
      IdleQueued op d (NJU3711.enqueueOperation op d e).2 ∧
      (NJU3711.enqueueOperation op d e).2.lastUpdateTime = e.lastUpdateTime ∧
      (NJU3711.enqueueOperation op d e).2.stepDelay = e.stepDelay ∧
      (NJU3711.enqueueOperation op d e).2.clearPin = e.clearPin ∧
      (NJU3711.enqueueOperation op d e).2.currentData = e.currentData := by
  obtain ⟨hs, hq0, hqh, hqt, hql, hck, hls, hcs, hsb⟩ := h
  simp only [NJU3711.enqueueOperation, hq0]
  rw [if_neg (by omega)]
  refine ⟨rfl, ⟨?_, ?_, ?_, ?_, ?_, ?_, ?_, ?_, ?_, ?_⟩, rfl, rfl, rfl, rfl⟩
  · simp [hs]
  · simp
  · simpa using hqh
  · simp [hqt]
  · simp [hql]
  · show (e.queue.set e.queueTail ⟨op, d, true⟩).getD e.queueHead default =
      ⟨op, d, true⟩
    rw [hqt]
    exact getD_set_self _ _ _ _ (by rw [hql]; exact hqh)
  · simp [hck]
  · simp [hls]
  · simp [hcs]
  · simp [hsb]

theorem write_not_test (d : Nat) (e : NJU3711)
    (h : e.state ≠ NJU3711_TEST_PATTERN) :
    NJU3711.write d e = NJU3711.enqueueOperation NJU3711_OP_WRITE d e := by
  simp [NJU3711.write, h]

theorem shift_not_test (d : Nat) (e : NJU3711)
    (h : e.state ≠ NJU3711_TEST_PATTERN) :
    NJU3711.shift d e = NJU3711.enqueueOperation NJU3711_OP_SHIFT_ONLY d e := by
  simp [NJU3711.shift, h]

theorem latch_not_test (e : NJU3711)
    (h : e.state ≠ NJU3711_TEST_PATTERN) :
    NJU3711.latch e = NJU3711.enqueueOperation NJU3711_OP_LATCH_ONLY 0 e := by
  simp [NJU3711.latch, h]

theorem clear_not_test (e : NJU3711)
    (h : e.state ≠ NJU3711_TEST_PATTERN) :
    NJU3711.clear e = NJU3711.enqueueOperation NJU3711_OP_CLEAR 0 e := by
  simp [NJU3711.clear, h]

theorem step_start_shift (t : Nat) (op : NJU3711_Operation) (v : Nat)
    (e : NJU3711)
    (hop : op = NJU3711_OP_WRITE ∨ op = NJU3711_OP_SHIFT_ONLY)
    (h : IdleQueued op v e) (ht : NJU3711.isTimingMet t e = true) :
    Shifting op v 7 false (NJU3711.processStateMachine t e) := by
  obtain ⟨hs, hq1, hqh, hqt, hql, hent, hck, hls, hcs, hsb⟩ := h
  simp only [NJU3711.processStateMachine, ht, if_true, hs,
    NJU3711.dequeueOperation, hq1, hent]
  rw [if_neg (by omega)]
  rcases hop with hop | hop <;> subst hop <;>
    simp only [NJU3711.startOperation] <;>
    exact ⟨rfl, rfl, rfl, rfl, rfl, hck, by simp, by simp; omega,
      by simp [hqt], by simp [hql], hls, hcs, rfl⟩

theorem step_shift_lo (t : Nat) (op : NJU3711_Operation) (v i : Nat)
    (e : NJU3711) (h : Shifting op v i false e)
    (ht : NJU3711.isTimingMet t e = true) :
    Shifting op v i true (NJU3711.processStateMachine t e) := by
  obtain ⟨hs, hcop, hsd, hcd, hbi, hck, hqs, hqh, hqt, hql, hls, hcs, hsb⟩ := h
  simp only [NJU3711.processStateMachine, NJU3711.updateClock, ht, if_true, hs,
    hck]
  norm_num
  exact ⟨rfl, hcop, hsd, hcd, hbi, rfl, hqs, hqh, hqt, hql, hls, hcs, hsb⟩

theorem step_shift_hi_succ (t : Nat) (op : NJU3711_Operation) (v i : Nat)
    (e : NJU3711) (h : Shifting op v (i + 1) true e)
    (ht : NJU3711.isTimingMet t e = true) :
    Shifting op v i false (NJU3711.processStateMachine t e) := by
  obtain ⟨hs, hcop, hsd, hcd, hbi, hck, hqs, hqh, hqt, hql, hls, hcs, hsb⟩ := h
  simp only [NJU3711.processStateMachine, NJU3711.updateClock, ht, if_true, hs,
    hck, hbi]
  norm_num
  rw [if_neg (by omega)]
  exact ⟨rfl, hcop, hsd, hcd, by push_cast; omega, rfl, hqs, hqh, hqt, hql,
    hls, hcs, hsb⟩

theorem step_shift_hi_zero_write (t : Nat) (v : Nat) (e : NJU3711)
    (h : Shifting NJU3711_OP_WRITE v 0 true e)
    (ht : NJU3711.isTimingMet t e = true) :
    Latching v false (NJU3711.processStateMachine t e) := by
  obtain ⟨hs, hcop, hsd, hcd, hbi, hck, hqs, hqh, hqt, hql, hls, hcs, hsb⟩ := h
  simp only [NJU3711.processStateMachine, NJU3711.updateClock, ht, if_true, hs,
    hck, hbi, hcop]
  norm_num
  exact ⟨rfl, hcd, hls, by simp [hsb], hqs, hqh, hqt, hql, rfl, hcs⟩

theorem step_shift_hi_zero_shiftOnly (t : Nat) (v : Nat) (e : NJU3711)
    (h : Shifting NJU3711_OP_SHIFT_ONLY v 0 true e)
    (ht : NJU3711.isTimingMet t e = true) :
    IdleEmpty (NJU3711.processStateMachine t e) ∧
      (NJU3711.processStateMachine t e).currentData = v := by
  obtain ⟨hs, hcop, hsd, hcd, hbi, hck, hqs, hqh, hqt, hql, hls, hcs, hsb⟩ := h
  simp only [NJU3711.processStateMachine, NJU3711.updateClock, ht, if_true, hs,
    hck, hbi, hcop]
  norm_num
  exact ⟨⟨rfl, hqs, hqh, hqt, hql, rfl, hls, hcs, hsb⟩, hcd⟩

theorem step_latch_a (t : Nat) (v : Nat) (e : NJU3711)
    (h : Latching v false e) (ht : NJU3711.isTimingMet t e = true) :
    Latching v true (NJU3711.processStateMachine t e) := by
  obtain ⟨hs, hcd, hls, hsb, hqs, hqh, hqt, hql, hck, hcs⟩ := h
  simp only [NJU3711.processStateMachine, ht, if_true, hs, hls]
  norm_num
  exact ⟨rfl, hcd, rfl, rfl, hqs, hqh, hqt, hql, hck, hcs⟩

theorem step_latch_b (t : Nat) (v : Nat) (e : NJU3711)
    (h : Latching v true e) (ht : NJU3711.isTimingMet t e = true) :
    IdleEmpty (NJU3711.processStateMachine t e) ∧
      (NJU3711.processStateMachine t e).currentData = v := by
  obtain ⟨hs, hcd, hls, hsb, hqs, hqh, hqt, hql, hck, hcs⟩ := h
  simp only [NJU3711.processStateMachine, ht, if_true, hs, hls]
  norm_num
  exact ⟨⟨rfl, hqs, hqh, hqt, hql, hck, rfl, hcs, rfl⟩, hcd⟩

theorem step_start_latch (t : Nat) (v : Nat) (e : NJU3711)
    (h : IdleQueued NJU3711_OP_LATCH_ONLY v e)
    (ht : NJU3711.isTimingMet t e = true) :
    Latching e.currentData false (NJU3711.processStateMachine t e) := by
  obtain ⟨hs, hq1, hqh, hqt, hql, hent, hck, hls, hcs, hsb⟩ := h
  simp only [NJU3711.processStateMachine, ht, if_true, hs,
    NJU3711.dequeueOperation, hq1, hent]
  rw [if_neg (by omega)]
  simp only [NJU3711.startOperation]
  exact ⟨rfl, rfl, hls, by simp [hsb], by simp, by simp; omega, by simp [hqt],
    by simp [hql], hck, hcs⟩

theorem step_start_clear (t : Nat) (v : Nat) (e : NJU3711)
    (h : IdleQueued NJU3711_OP_CLEAR v e)
    (ht : NJU3711.isTimingMet t e = true) :
    Clearing false (NJU3711.processStateMachine t e) := by
  obtain ⟨hs, hq1, hqh, hqt, hql, hent, hck, hls, hcs, hsb⟩ := h
  simp only [NJU3711.processStateMachine, ht, if_true, hs,
    NJU3711.dequeueOperation, hq1, hent]
  rw [if_neg (by omega)]
  simp only [NJU3711.startOperation]
  exact ⟨rfl, hcs, by simp, by simp; omega, by simp [hqt], by simp [hql],
    hck, hls, hsb⟩

theorem step_start_testOp (t : Nat) (v : Nat) (e : NJU3711)
    (h : IdleQueued NJU3711_OP_TEST_PATTERN v e)
    (ht : NJU3711.isTimingMet t e = true) :
    IdleEmpty (NJU3711.processStateMachine t e) := by
  obtain ⟨hs, hq1, hqh, hqt, hql, hent, hck, hls, hcs, hsb⟩ := h
  simp only [NJU3711.processStateMachine, ht, if_true, hs,
    NJU3711.dequeueOperation, hq1, hent]
  rw [if_neg (by omega)]
  simp only [NJU3711.startOperation]
  exact ⟨rfl, by simp, by simp; omega, by simp [hqt], by simp [hql],
    by simp [hck], by simp [hls], by simp [hcs], by simp [hsb]⟩

theorem step_clear_hw_a (t : Nat) (e : NJU3711) (h : Clearing false e)
    (hp : e.clearPin ≠ 255) (ht : NJU3711.isTimingMet t e = true) :
    Clearing true (NJU3711.processStateMachine t e) := by
  obtain ⟨hs, hcs, hqs, hqh, hqt, hql, hck, hls, hsb⟩ := h
  simp only [NJU3711.processStateMachine, ht, if_true, hs, hcs, if_pos hp]
  norm_num
  exact ⟨rfl, rfl, hqs, hqh, hqt, hql, hck, hls, hsb⟩

theorem step_clear_hw_b (t : Nat) (e : NJU3711) (h : Clearing true e)
    (hp : e.clearPin ≠ 255) (ht : NJU3711.isTimingMet t e = true) :
    IdleEmpty (NJU3711.processStateMachine t e) ∧
      (NJU3711.processStateMachine t e).currentData = 0 := by
  obtain ⟨hs, hcs, hqs, hqh, hqt, hql, hck, hls, hsb⟩ := h
  simp only [NJU3711.processStateMachine, ht, if_true, hs, hcs, if_pos hp]
  norm_num
  exact ⟨rfl, hqs, hqh, hqt, hql, hck, hls, rfl, hsb⟩

theorem step_clear_sw (t : Nat) (e : NJU3711) (h : Clearing false e)
    (hp : e.clearPin = 255) (ht : NJU3711.isTimingMet t e = true) :
    IdleQueued NJU3711_OP_WRITE 0 (NJU3711.processStateMachine t e) ∧
      (NJU3711.processStateMachine t e).currentData = 0 := by
  obtain ⟨hs, hcs, hqs, hqh, hqt, hql, hck, hls, hsb⟩ := h
  simp only [NJU3711.processStateMachine, ht, if_true, hs, hp,
    NJU3711.enqueueOperation, hqs]
  norm_num
  refine ⟨rfl, by simp, by simpa using hqh, by simp [hqt], by simp [hql], ?_,
    by simp [hck], by simp [hls], by simp [hcs], by simp [hsb]⟩
  show (e.queue.set e.queueTail ⟨NJU3711_OP_WRITE, 0, true⟩).getD
      e.queueHead default = ⟨NJU3711_OP_WRITE, 0, true⟩
  rw [hqt]
  exact getD_set_self _ _ _ _ (by rw [hql]; exact hqh)

theorem step_clearPin (t : Nat) (e : NJU3711) :
    (NJU3711.processStateMachine t e).clearPin = e.clearPin := by
  have hdqf : ∀ e1 : NJU3711, (NJU3711.dequeueOperation e1).2.clearPin = e1.clearPin := by
    intro e1
    unfold NJU3711.dequeueOperation
    split <;> rfl
  have hstf : ∀ (op : NJU3711_Operation) (d : Nat) (e1 : NJU3711),
      (NJU3711.startOperation op d e1).clearPin = e1.clearPin := by
    intro op d e1
    cases op <;> rfl
  have hwrf : ∀ (d : Nat) (e1 : NJU3711),
      (NJU3711.write d e1).2.clearPin = e1.clearPin := by
    intro d e1
    simp only [NJU3711.write, NJU3711.stopTestPattern, NJU3711.enqueueOperation]
    split <;> split <;> rfl
  have henf : ∀ (op : NJU3711_Operation) (d : Nat) (e1 : NJU3711),
      (NJU3711.enqueueOperation op d e1).2.clearPin = e1.clearPin := by
    intro op d e1
    unfold NJU3711.enqueueOperation
    split <;> rfl
  have hucf : ∀ (b : Bool) (e1 : NJU3711),
      (NJU3711.updateClock t b e1).clearPin = e1.clearPin := by
    intro b e1
    unfold NJU3711.updateClock
    split <;> rfl
  simp only [NJU3711.processStateMachine]
  split
  · split
    · rcases hdq : NJU3711.dequeueOperation e with ⟨_ | ⟨op, d⟩, e1⟩
      · have h1 := hdqf e
        rw [hdq] at h1
        exact h1
      · have h1 := hdqf e
        rw [hdq] at h1
        exact (hstf op d e1).trans h1
    · split
      · exact hucf true _
      · have h1 := hucf false e
        split
        · split <;> simpa using h1
        · simpa using h1
    · split <;> rfl
    · split
      · split <;> rfl
      · split <;> simp [henf]
    · split
      · split <;> simp [hwrf]
      · rfl
  · rfl

theorem shiftRun_write (v : Nat) :
    ∀ (i : Nat) (e : NJU3711) (ts : List Nat),
      Shifting NJU3711_OP_WRITE v i false e → AllEligible ts e →
      ts.length = 2 * i + 2 → Latching v false (runSched ts e) := by
  intro i
  induction i with
  | zero =>
    intro e ts h hel hlen
    rcases ts with _ | ⟨t1, ts⟩
    · simp at hlen
    rcases ts with _ | ⟨t2, ts⟩
    · simp at hlen
    rcases ts with _ | ⟨t3, ts⟩
    · obtain ⟨h1, h2, -⟩ := hel
      exact step_shift_hi_zero_write t2 v _ (step_shift_lo t1 _ v 0 _ h h1) h2
    · simp at hlen
  | succ i ih =>
    intro e ts h hel hlen
    rcases ts with _ | ⟨t1, ts⟩
    · simp at hlen
    rcases ts with _ | ⟨t2, ts⟩
    · simp at hlen
    obtain ⟨h1, h2, hel3⟩ := hel
    have hlo := step_shift_lo t1 _ v (i + 1) _ h h1
    have hhi := step_shift_hi_succ t2 _ v i _ hlo h2
    exact ih _ ts hhi hel3 (by simp at hlen; omega)

theorem shiftRun_shiftOnly (v : Nat) :
    ∀ (i : Nat) (e : NJU3711) (ts : List Nat),
      Shifting NJU3711_OP_SHIFT_ONLY v i false e → AllEligible ts e →
      ts.length = 2 * i + 2 →
      IdleEmpty (runSched ts e) ∧ (runSched ts e).currentData = v := by
  intro i
  induction i with
  | zero =>
    intro e ts h hel hlen
    rcases ts with _ | ⟨t1, ts⟩
    · simp at hlen
    rcases ts with _ | ⟨t2, ts⟩
    · simp at hlen
    rcases ts with _ | ⟨t3, ts⟩
    · obtain ⟨h1, h2, -⟩ := hel
      exact step_shift_hi_zero_shiftOnly t2 v _ (step_shift_lo t1 _ v 0 _ h h1) h2
    · simp at hlen
  | succ i ih =>
    intro e ts h hel hlen
    rcases ts with _ | ⟨t1, ts⟩
    · simp at hlen
    rcases ts with _ | ⟨t2, ts⟩
    · simp at hlen
    obtain ⟨h1, h2, hel3⟩ := hel
    have hlo := step_shift_lo t1 _ v (i + 1) _ h h1
    have hhi := step_shift_hi_succ t2 _ v i _ hlo h2
    exact ih _ ts hhi hel3 (by simp at hlen; omega)

theorem writeRun (v : Nat) (e : NJU3711) (ts : List Nat)
    (h : IdleQueued NJU3711_OP_WRITE v e) (hel : AllEligible ts e)
    (hlen : ts.length = 19) :
    IdleEmpty (runSched ts e) ∧ (runSched ts e).currentData = v := by
  rcases ts with _ | ⟨t1, ts⟩
  · simp at hlen
  simp only [List.length_cons] at hlen
  obtain ⟨h1, hel⟩ := hel
  have hsh := step_start_shift t1 _ v e (Or.inl rfl) h h1
  have hsplit : ts = ts.take 16 ++ ts.drop 16 := (List.take_append_drop 16 ts).symm
  have hl1 : (ts.take 16).length = 16 := by simp; omega
  have hl2 : (ts.drop 16).length = 2 := by simp; omega
  rw [show runSched (t1 :: ts) e =
        runSched ts (NJU3711.processStateMachine t1 e) from rfl,
    hsplit, runSched_append]
  have hel' : AllEligible (ts.take 16 ++ ts.drop 16)
      (NJU3711.processStateMachine t1 e) := by rw [← hsplit]; exact hel
  rw [allEligible_append] at hel'
  obtain ⟨hel1, hel2⟩ := hel'
  have hlat := shiftRun_write v 7 _ (ts.take 16) hsh hel1 (by omega)
  rcases hdrop : ts.drop 16 with _ | ⟨ta, ts2⟩
  · have h0 := congrArg List.length hdrop
    simp at h0
    omega
  rcases ts2 with _ | ⟨tb, ts2⟩
  · have h0 := congrArg List.length hdrop
    simp at h0
    omega
  rcases ts2 with _ | ⟨tc, ts2⟩
  swap
  · have h0 := congrArg List.length hdrop
    simp at h0
    omega
  rw [hdrop] at hel2
  obtain ⟨ha, hb, -⟩ := hel2
  exact step_latch_b tb v _ (step_latch_a ta v _ hlat ha) hb

theorem shiftOnlyRun (v : Nat) (e : NJU3711) (ts : List Nat)
    (h : IdleQueued NJU3711_OP_SHIFT_ONLY v e) (hel : AllEligible ts e)
    (hlen : ts.length = 17) :
    IdleEmpty (runSched ts e) ∧ (runSched ts e).currentData = v := by
  rcases ts with _ | ⟨t1, ts⟩
  · simp at hlen
  obtain ⟨h1, hel⟩ := hel
  have hsh := step_start_shift t1 _ v e (Or.inr rfl) h h1
  exact shiftRun_shiftOnly v 7 _ ts hsh hel (by simp at hlen; omega)

theorem latchRun (v : Nat) (e : NJU3711) (ts : List Nat)
    (h : IdleQueued NJU3711_OP_LATCH_ONLY v e) (hel : AllEligible ts e)
    (hlen : ts.length = 3) :
    IdleEmpty (runSched ts e) ∧ (runSched ts e).currentData = e.currentData := by
  rcases ts with _ | ⟨t1, ts⟩
  · simp at hlen
  rcases ts with _ | ⟨ta, ts⟩
  · simp at hlen
  rcases ts with _ | ⟨tb, ts⟩
  · simp at hlen
  rcases ts with _ | ⟨tc, ts⟩
  swap
  · simp at hlen
  obtain ⟨h1, ha, hb, -⟩ := hel
  have hL := step_start_latch t1 v e h h1
  exact step_latch_b tb e.currentData _ (step_latch_a ta e.currentData _ hL ha) hb

theorem clearHwRun (v : Nat) (e : NJU3711) (ts : List Nat)
    (hp : e.clearPin ≠ 255)
    (h : IdleQueued NJU3711_OP_CLEAR v e) (hel : AllEligible ts e)
    (hlen : ts.length = 3) :
    IdleEmpty (runSched ts e) ∧ (runSched ts e).currentData = 0 := by
  rcases ts with _ | ⟨t1, ts⟩
  · simp at hlen
  rcases ts with _ | ⟨ta, ts⟩
  · simp at hlen
  rcases ts with _ | ⟨tb, ts⟩
  · simp at hlen
  rcases ts with _ | ⟨tc, ts⟩
  swap
  · simp at hlen
  obtain ⟨h1, ha, hb, -⟩ := hel
  have hC := step_start_clear t1 v e h h1
  have hp1 : (NJU3711.processStateMachine t1 e).clearPin ≠ 255 := by
    rw [step_clearPin]; exact hp
  have hC2 := step_clear_hw_a ta _ hC hp1 ha
  have hp2 : (NJU3711.processStateMachine ta
      (NJU3711.processStateMachine t1 e)).clearPin ≠ 255 := by
    rw [step_clearPin, step_clearPin]; exact hp
  exact step_clear_hw_b tb _ hC2 hp2 hb

theorem clearSwRun (v : Nat) (e : NJU3711) (ts : List Nat)
    (hp : e.clearPin = 255)
    (h : IdleQueued NJU3711_OP_CLEAR v e) (hel : AllEligible ts e)
    (hlen : ts.length = 21) :
    IdleEmpty (runSched ts e) ∧ (runSched ts e).currentData = 0 := by
  rcases ts with _ | ⟨t1, ts⟩
  · simp at hlen
  rcases ts with _ | ⟨t2, ts⟩
  · simp at hlen
  obtain ⟨h1, h2, hel⟩ := hel
  have hC := step_start_clear t1 v e h h1
  have hp1 : (NJU3711.processStateMachine t1 e).clearPin = 255 := by
    rw [step_clearPin]; exact hp
  have hQ := (step_clear_sw t2 _ hC hp1 h2).1
  exact writeRun 0 _ ts hQ hel (by simp at hlen; omega)

theorem spaced_allEligible :
    ∀ (ts : List Nat) (prev : Nat) (e : NJU3711), e.lastUpdateTime ≤ prev →
      Spaced e.stepDelay prev ts → AllEligible ts e := by
  intro ts
  induction ts with
  | nil => intro prev e _ _; trivial
  | cons t ts ih =>
    intro prev e hle hsp
    obtain ⟨h1, h2⟩ := hsp
    refine ⟨?_, ?_⟩
    · simp only [NJU3711.isTimingMet, decide_eq_true_eq]
      omega
    · refine ih t (NJU3711.processStateMachine t e) ?_ ?_
      · exact step_lastUpdateTime_le t e (by omega)
      · rw [step_stepDelay]; exact h2

/-! Claim theorems. -/

/-- C7: for every engine state, calling step (update) before the configured
minimum step interval has elapsed since the timestamp of the last recorded
pin-level change leaves the entire engine state — protocol state, queue
contents, currentValue, pin levels — unchanged: a no-op safe at arbitrarily
high call frequency. -/
theorem claim7_step_before_interval_noop (t : Nat) (e : NJU3711)
    (h : t - e.lastUpdateTime < e.stepDelay) :
    NJU3711.update t e = e := by
  unfold NJU3711.update NJU3711.processStateMachine
  rw [if_neg]
  simp only [NJU3711.isTimingMet, decide_eq_true_eq]
  omega

/-- Witness for C7 at a concrete engine and time. -/
theorem claim7_witness :
    100 - (NJU3711.mkEngine 30 100).lastUpdateTime <
        (NJU3711.mkEngine 30 100).stepDelay ∧
      NJU3711.update 100 (NJU3711.mkEngine 30 100) = NJU3711.mkEngine 30 100 :=
  ⟨by decide, claim7_step_before_interval_noop 100 (NJU3711.mkEngine 30 100)
    (by decide)⟩

/-- C2: for every byte v, a Write(v) submitted from the idle-and-empty-queue
state and run to completion by 19 step calls spaced at least the minimum
step interval apart is accepted and results in currentValue() = v and
isBusy() = false. -/
theorem claim2_write_runs_to_completion (v : Nat) (e : NJU3711)
    (ts : List Nat) (hv : v < 256) (h : IdleEmpty e) (hlen : ts.length = 19)
    (hsp : Spaced e.stepDelay e.lastUpdateTime ts) :
    (NJU3711.write v e).1 = true ∧
      NJU3711.getCurrentData (runSched ts (NJU3711.write v e).2) = v ∧
      NJU3711.isBusy (runSched ts (NJU3711.write v e).2) = false := by
  have hw := write_not_test v e (by rw [h.state]; simp)
  rw [hw]
  obtain ⟨hsub, hq, hlast, hdelay, -, -⟩ := enqueue_idleEmpty NJU3711_OP_WRITE v e h
  have hel : AllEligible ts (NJU3711.enqueueOperation NJU3711_OP_WRITE v e).2 :=
    spaced_allEligible ts e.lastUpdateTime _ (le_of_eq hlast)
      (by rw [hdelay]; exact hsp)
  have hrun := writeRun v _ ts hq hel hlen
  refine ⟨hsub, hrun.2, ?_⟩
  simp [NJU3711.isBusy, hrun.1.state, hrun.1.qsize]

/-- Witness for C2: Write(182) from a freshly initialised engine completes
in 19 minimally spaced steps with currentValue() = 182 and the engine idle. -/
theorem claim2_witness :
    (NJU3711.write 182 (NJU3711.mkEngine 30 100)).1 = true ∧
      NJU3711.getCurrentData (runSched (ticks 100 19)
        (NJU3711.write 182 (NJU3711.mkEngine 30 100)).2) = 182 ∧
      NJU3711.isBusy (runSched (ticks 100 19)
        (NJU3711.write 182 (NJU3711.mkEngine 30 100)).2) = false :=
  claim2_write_runs_to_completion 182 (NJU3711.mkEngine 30 100) (ticks 100 19)
    (by decide)
    ⟨by decide, by decide, by decide, by decide, by decide, by decide,
      by decide, by decide, by decide⟩
    (by decide) (by decide)

/-- C1 counterexample: from an idle engine whose latched value is 5, a
ShiftOnly(3) operation run to completion over 17 steps spaced the minimum
interval apart leaves getCurrentData() = 3, not the prior value 5: the
claim that a shift-only operation leaves currentValue() unchanged is false
(startOperation assigns currentData for shift-only exactly as for write). -/
theorem claim1_counterexample :
    Spaced engC1.stepDelay engC1.lastUpdateTime (ticks 0 17) ∧
      NJU3711.isBusy runC1 = false ∧
      NJU3711.getCurrentData engC1 = 5 ∧
      NJU3711.getCurrentData runC1 = 3 ∧
      NJU3711.getCurrentData runC1 ≠ NJU3711.getCurrentData engC1 := by
  refine ⟨by decide, by decide, by decide, by decide, by decide⟩

/-- C1 amended: a ShiftOnly(v) operation submitted from the
idle-and-empty-queue state and run to completion over 17 minimally spaced
steps is accepted and leaves getCurrentData() equal to v — the shifted
byte, not the previous latched value — with the engine idle; the strobe
line is never driven during the operation (still at its initial high level
at completion, the engine passing from Shifting straight back to Idle), so
the device's parallel-output latch itself is not re-latched. -/
theorem claim1_amended_shiftOnly (v : Nat) (e : NJU3711) (ts : List Nat)
    (hv : v < 256) (h : IdleEmpty e) (hlen : ts.length = 17)
    (hsp : Spaced e.stepDelay e.lastUpdateTime ts) :
    (NJU3711.shift v e).1 = true ∧
      NJU3711.getCurrentData (runSched ts (NJU3711.shift v e).2) = v ∧
      NJU3711.isBusy (runSched ts (NJU3711.shift v e).2) = false ∧
      (runSched ts (NJU3711.shift v e).2).strobeLevel = true ∧
      (runSched ts (NJU3711.shift v e).2).state = NJU3711_IDLE := by
  have hw := shift_not_test v e (by rw [h.state]; simp)
  rw [hw]
  obtain ⟨hsub, hq, hlast, hdelay, -, -⟩ :=
    enqueue_idleEmpty NJU3711_OP_SHIFT_ONLY v e h
  have hel : AllEligible ts (NJU3711.enqueueOperation NJU3711_OP_SHIFT_ONLY v e).2 :=
    spaced_allEligible ts e.lastUpdateTime _ (le_of_eq hlast)
      (by rw [hdelay]; exact hsp)
  have hrun := shiftOnlyRun v _ ts hq hel hlen
  refine ⟨hsub, hrun.2, ?_, hrun.1.strobe, hrun.1.state⟩
  simp [NJU3711.isBusy, hrun.1.state, hrun.1.qsize]

/-- Witness for the amended C1 at the counterexample input: ShiftOnly(3)
from the engine whose latched value is 5 ends with getCurrentData() = 3,
idle, strobe high. -/
theorem claim1_amended_witness :
    (NJU3711.shift 3 engC1).1 = true ∧
      NJU3711.getCurrentData (runSched (ticks 0 17) (NJU3711.shift 3 engC1).2) = 3 ∧
      NJU3711.isBusy (runSched (ticks 0 17) (NJU3711.shift 3 engC1).2) = false ∧
      (runSched (ticks 0 17) (NJU3711.shift 3 engC1).2).strobeLevel = true ∧
      (runSched (ticks 0 17) (NJU3711.shift 3 engC1).2).state = NJU3711_IDLE :=
  claim1_amended_shiftOnly 3 engC1 (ticks 0 17) (by decide)
    ⟨by decide, by decide, by decide, by decide, by decide, by decide,
      by decide, by decide, by decide⟩
    (by decide) (by decide)

/-- C3: a Clear operation submitted from the idle-and-empty-queue state and
run to completion results in currentValue() = 0 and an idle engine on both
clear paths: the hardware path (dedicated clear pin wired, 3 steps) and the
software path (clear pin absent, the clear redirected to a Write of 0x00,
21 steps including the drain of the redirected write). -/
theorem claim3_clear_runs_to_zero (e : NJU3711) (ts : List Nat)
    (h : IdleEmpty e) :
    (e.clearPin ≠ 255 → ts.length = 3 →
      Spaced e.stepDelay e.lastUpdateTime ts →
      NJU3711.getCurrentData (runSched ts (NJU3711.clear e).2) = 0 ∧
        NJU3711.isBusy (runSched ts (NJU3711.clear e).2) = false) ∧
    (e.clearPin = 255 → ts.length = 21 →
      Spaced e.stepDelay e.lastUpdateTime ts →
      NJU3711.getCurrentData (runSched ts (NJU3711.clear e).2) = 0 ∧
        NJU3711.isBusy (runSched ts (NJU3711.clear e).2) = false) := by
  have hw := clear_not_test e (by rw [h.state]; simp)
  rw [hw]
  obtain ⟨hsub, hq, hlast, hdelay, hpin, -⟩ :=
    enqueue_idleEmpty NJU3711_OP_CLEAR 0 e h
  constructor
  · intro hp hlen hsp
    have hel : AllEligible ts (NJU3711.enqueueOperation NJU3711_OP_CLEAR 0 e).2 :=
      spaced_allEligible ts e.lastUpdateTime _ (le_of_eq hlast)
        (by rw [hdelay]; exact hsp)
    have hrun := clearHwRun 0 _ ts (by rw [hpin]; exact hp) hq hel hlen
    exact ⟨hrun.2, by simp [NJU3711.isBusy, hrun.1.state, hrun.1.qsize]⟩
  · intro hp hlen hsp
    have hel : AllEligible ts (NJU3711.enqueueOperation NJU3711_OP_CLEAR 0 e).2 :=
      spaced_allEligible ts e.lastUpdateTime _ (le_of_eq hlast)
        (by rw [hdelay]; exact hsp)
    have hrun := clearSwRun 0 _ ts (by rw [hpin]; exact hp) hq hel hlen
    exact ⟨hrun.2, by simp [NJU3711.isBusy, hrun.1.state, hrun.1.qsize]⟩

/-- Witness for C3: both paths at concrete engines — a hardware clear on an
engine latched at 77 with clear line on pin 30, and a software clear on an
engine latched at 77 with the clear line strapped (255). -/
theorem claim3_witness :
    (NJU3711.getCurrentData (runSched (ticks 0 3)
        (NJU3711.clear { NJU3711.mkEngine 30 0 with currentData := 77 }).2) = 0 ∧
      NJU3711.isBusy (runSched (ticks 0 3)
        (NJU3711.clear { NJU3711.mkEngine 30 0 with currentData := 77 }).2) = false) ∧
    (NJU3711.getCurrentData (runSched (ticks 0 21)
        (NJU3711.clear { NJU3711.mkEngine 255 0 with currentData := 77 }).2) = 0 ∧
      NJU3711.isBusy (runSched (ticks 0 21)
        (NJU3711.clear { NJU3711.mkEngine 255 0 with currentData := 77 }).2) = false) := by
  constructor
  · exact (claim3_clear_runs_to_zero
      { NJU3711.mkEngine 30 0 with currentData := 77 } (ticks 0 3)
      ⟨by decide, by decide, by decide, by decide, by decide, by decide,
        by decide, by decide, by decide⟩).1
      (by decide) (by decide) (by decide)
  · exact (claim3_clear_runs_to_zero
      { NJU3711.mkEngine 255 0 with currentData := 77 } (ticks 0 21)
      ⟨by decide, by decide, by decide, by decide, by decide, by decide,
        by decide, by decide, by decide⟩).2
      (by decide) (by decide) (by decide)

/-- C9: every operation dequeued from an idle engine completes — the engine
state is Idle again — after exactly its fixed number of timing-eligible
step calls, and that number is at most 1 + 2*8 + 2 (the full
write-plus-latch count), so forward progress is guaranteed as long as step
keeps being invoked.  For the software clear path the clear operation
itself completes in 2 steps, having requeued an equivalent Write of 0x00. -/
theorem claim9_bounded_step_counts (op : NJU3711_Operation) (v : Nat)
    (e : NJU3711) (ts : List Nat) (h : IdleQueued op v e)
    (hel : AllEligible ts e) (hlen : ts.length = opStepCount op e.clearPin) :
    (runSched ts e).state = NJU3711_IDLE ∧
      opStepCount op e.clearPin ≤ 1 + 2 * 8 + 2 := by
  constructor
  · cases op with
    | NJU3711_OP_WRITE =>
      exact (writeRun v e ts h hel (by simpa [opStepCount] using hlen)).1.state
    | NJU3711_OP_SHIFT_ONLY =>
      exact (shiftOnlyRun v e ts h hel (by simpa [opStepCount] using hlen)).1.state
    | NJU3711_OP_LATCH_ONLY =>
      exact (latchRun v e ts h hel (by simpa [opStepCount] using hlen)).1.state
    | NJU3711_OP_CLEAR =>
      by_cases hp : e.clearPin = 255
      · simp only [opStepCount, hp] at hlen
        norm_num at hlen
        rcases ts with _ | ⟨t1, ts⟩
        · simp at hlen
        rcases ts with _ | ⟨t2, ts⟩
        · simp at hlen
        rcases ts with _ | ⟨t3, ts⟩
        swap
        · simp at hlen
        obtain ⟨h1, h2, -⟩ := hel
        have hC := step_start_clear t1 v e h h1
        have hp1 : (NJU3711.processStateMachine t1 e).clearPin = 255 := by
          rw [step_clearPin]; exact hp
        exact ((step_clear_sw t2 _ hC hp1 h2).1).state
      · exact (clearHwRun v e ts hp h hel
          (by simp [opStepCount, hp] at hlen; omega)).1.state
    | NJU3711_OP_TEST_PATTERN =>
      rcases ts with _ | ⟨t1, ts⟩
      · simp [opStepCount] at hlen
      rcases ts with _ | ⟨t2, ts⟩
      swap
      · simp [opStepCount] at hlen
      obtain ⟨h1, -⟩ := hel
      exact (step_start_testOp t1 v e h h1).state
  · cases op <;> simp [opStepCount] <;> split_ifs <;> omega

/-- Witness for C9: a Write operation at the head of a concrete idle queue
completes in its 19 eligible steps. -/
theorem claim9_witness :
    (runSched (ticks 0 19) (NJU3711.write 7 (NJU3711.mkEngine 30 0)).2).state =
        NJU3711_IDLE ∧
      opStepCount NJU3711_OP_WRITE
        (NJU3711.write 7 (NJU3711.mkEngine 30 0)).2.clearPin ≤ 1 + 2 * 8 + 2 :=
  claim9_bounded_step_counts NJU3711_OP_WRITE 7
    (NJU3711.write 7 (NJU3711.mkEngine 30 0)).2 (ticks 0 19)
    ⟨by decide, by decide, by decide, by decide, by decide, by decide,
      by decide, by decide, by decide, by decide⟩
    (by decide) (by decide)

/-- C10: submitting any protocol operation while a test pattern is active
first stops the test pattern — the resulting engine state is Idle, so the
TEST_PATTERN branch of the state machine can generate no further writes —
and the submitted operation is enqueued exactly as it would be on an engine
already returned to Idle. -/
theorem claim10_submit_stops_test_pattern (v : Nat) (e : NJU3711)
    (h : e.state = NJU3711_TEST_PATTERN) :
    NJU3711.write v e =
        NJU3711.enqueueOperation NJU3711_OP_WRITE v { e with state := NJU3711_IDLE } ∧
      (NJU3711.write v e).2.state = NJU3711_IDLE ∧
      NJU3711.shift v e =
        NJU3711.enqueueOperation NJU3711_OP_SHIFT_ONLY v { e with state := NJU3711_IDLE } ∧
      (NJU3711.shift v e).2.state = NJU3711_IDLE ∧
      NJU3711.latch e =
        NJU3711.enqueueOperation NJU3711_OP_LATCH_ONLY 0 { e with state := NJU3711_IDLE } ∧
      (NJU3711.latch e).2.state = NJU3711_IDLE ∧
      NJU3711.clear e =
        NJU3711.enqueueOperation NJU3711_OP_CLEAR 0 { e with state := NJU3711_IDLE } ∧
      (NJU3711.clear e).2.state = NJU3711_IDLE := by
  have hstop : NJU3711.stopTestPattern e = { e with state := NJU3711_IDLE } := by
    simp [NJU3711.stopTestPattern, h]
  refine ⟨?_, ?_, ?_, ?_, ?_, ?_, ?_, ?_⟩
  · simp [NJU3711.write, h, hstop]
  · simp only [NJU3711.write, h, if_pos, hstop, NJU3711.enqueueOperation]
    split <;> rfl
  · simp [NJU3711.shift, h, hstop]
  · simp only [NJU3711.shift, h, if_pos, hstop, NJU3711.enqueueOperation]
    split <;> rfl
  · simp [NJU3711.latch, h, hstop]
  · simp only [NJU3711.latch, h, if_pos, hstop, NJU3711.enqueueOperation]
    split <;> rfl
  · simp [NJU3711.clear, h, hstop]
  · simp only [NJU3711.clear, h, if_pos, hstop, NJU3711.enqueueOperation]
    split <;> rfl

/-- Witness for C10 at a concrete engine in test-pattern mode. -/
theorem claim10_witness :
    NJU3711.write 9 { NJU3711.mkEngine 30 0 with state := NJU3711_TEST_PATTERN } =
        NJU3711.enqueueOperation NJU3711_OP_WRITE 9
          { { NJU3711.mkEngine 30 0 with state := NJU3711_TEST_PATTERN } with
            state := NJU3711_IDLE } ∧
      (NJU3711.write 9
        { NJU3711.mkEngine 30 0 with state := NJU3711_TEST_PATTERN }).2.state =
        NJU3711_IDLE :=
  ⟨(claim10_submit_stops_test_pattern 9
      { NJU3711.mkEngine 30 0 with state := NJU3711_TEST_PATTERN } (by decide)).1,
    (claim10_submit_stops_test_pattern 9
      { NJU3711.mkEngine 30 0 with state := NJU3711_TEST_PATTERN } (by decide)).2.1⟩

/-- C4: a submission is rejected — enqueueOperation returns false — exactly
when getQueueSize() is the capacity 8, and a rejected submission leaves the
engine unchanged; concretely, out of nine consecutive Write(0xFF)
submissions to a fresh engine the ninth returns false and getQueueSize()
stays at 8. -/
theorem claim4_submit_fails_iff_full (op : NJU3711_Operation) (d : Nat)
    (e : NJU3711) (hinv : e.queueSize ≤ 8) :
    ((NJU3711.enqueueOperation op d e).1 = false ↔ NJU3711.getQueueSize e = 8) ∧
      ((NJU3711.enqueueOperation op d e).1 = false →
        (NJU3711.enqueueOperation op d e).2 = e) ∧
      (NJU3711.write 255 eightWrites).1 = false ∧
      NJU3711.getQueueSize (NJU3711.write 255 eightWrites).2 = 8 := by
  refine ⟨?_, ?_, by decide, by decide⟩
  · unfold NJU3711.enqueueOperation NJU3711.getQueueSize
    split
    · simp
      omega
    · simp
      omega
  · unfold NJU3711.enqueueOperation
    split
    · intro _
      rfl
    · intro hf
      simp at hf

/-- Witness for C4 at a concrete full queue. -/
theorem claim4_witness :
    ((NJU3711.enqueueOperation NJU3711_OP_WRITE 255 eightWrites).1 = false ↔
        NJU3711.getQueueSize eightWrites = 8) ∧
      ((NJU3711.enqueueOperation NJU3711_OP_WRITE 255 eightWrites).1 = false →
        (NJU3711.enqueueOperation NJU3711_OP_WRITE 255 eightWrites).2 =
          eightWrites) ∧
      (NJU3711.write 255 eightWrites).1 = false ∧
      NJU3711.getQueueSize (NJU3711.write 255 eightWrites).2 = 8 :=
  claim4_submit_fails_iff_full NJU3711_OP_WRITE 255 eightWrites (by decide)

/-- C8: the 8-cell ring buffer refines a bounded FIFO list.  Reading the
buffer through absQueue, an accepted enqueue appends the new operation at
the back of the list and a rejected one changes nothing; a dequeue on a
non-empty queue returns exactly the front of the list and leaves its tail,
and fails without effect on an empty queue; well-formedness is preserved.
Since the state machine executes operations in the order dequeue yields
them, operations execute strictly in submission order. -/
theorem claim8_queue_refines_fifo (op : NJU3711_Operation) (d : Nat)
    (e : NJU3711) (h : QueueWF e) :
    (e.queueSize < 8 →
      (NJU3711.enqueueOperation op d e).1 = true ∧
        QueueWF (NJU3711.enqueueOperation op d e).2 ∧
        absQueue (NJU3711.enqueueOperation op d e).2 = absQueue e ++ [(op, d)]) ∧
    (e.queueSize = 8 → NJU3711.enqueueOperation op d e = (false, e)) ∧
    (e.queueSize = 0 → NJU3711.dequeueOperation e = (none, e)) ∧
    (0 < e.queueSize →
      (NJU3711.dequeueOperation e).1 = (absQueue e).head? ∧
        QueueWF (NJU3711.dequeueOperation e).2 ∧
        absQueue (NJU3711.dequeueOperation e).2 = (absQueue e).tail) := by
  obtain ⟨hql, hqh, hqs, hqt⟩ := h
  refine ⟨?_, ?_, ?_, ?_⟩
  · intro hlt
    simp only [NJU3711.enqueueOperation]
    rw [if_neg (by omega)]
    refine ⟨rfl, ⟨by simp [hql], by simpa using hqh, by simp; omega,
      by simp [hqt]; omega⟩, ?_⟩
    simp only [absQueue]
    rw [List.range_succ, List.map_append]
    congr 1
    · apply List.map_congr_left
      intro i hi
      have hi' : i < e.queueSize := List.mem_range.mp hi
      have hne : e.queueTail ≠ (e.queueHead + i) % 8 := by
        rw [hqt]
        omega
      rw [getD_set_ne _ _ _ hne]
    · simp only [List.map_cons, List.map_nil]
      rw [← hqt, getD_set_self _ _ _ _ (by rw [hql]; omega)]
  · intro hfull
    simp only [NJU3711.enqueueOperation]
    rw [if_pos (by omega)]
  · intro hz
    simp only [NJU3711.dequeueOperation]
    rw [if_pos hz]
  · intro hpos
    simp only [NJU3711.dequeueOperation]
    rw [if_neg (by omega)]
    have hmod : e.queueHead % 8 = e.queueHead := Nat.mod_eq_of_lt hqh
    refine ⟨?_, ⟨by simp [hql], by simp; omega, by simp; omega,
      by simp [hqt]; omega⟩, ?_⟩
    · simp only [absQueue]
      rw [show e.queueSize = (e.queueSize - 1) + 1 from by omega,
        List.range_succ_eq_map]
      simp only [List.map_cons, List.head?_cons]
      rw [show (e.queueHead + 0) % 8 = e.queueHead from by omega]
    · simp only [absQueue]
      conv_rhs =>
        rw [show e.queueSize = (e.queueSize - 1) + 1 from by omega,
          List.range_succ_eq_map]
      simp only [List.map_cons, List.tail_cons, List.map_map]
      apply List.map_congr_left
      intro i hi
      have hi' : i < e.queueSize - 1 := List.mem_range.mp hi
      have hne : e.queueHead ≠ ((e.queueHead + 1) % 8 + i) % 8 := by omega
      show ((((e.queue.set e.queueHead _)).getD
          (((e.queueHead + 1) % 8 + i) % 8) default).operation,
        (((e.queue.set e.queueHead _)).getD
          (((e.queueHead + 1) % 8 + i) % 8) default).data) = _
      rw [getD_set_ne _ _ _ hne]
      have hidx : ((e.queueHead + 1) % 8 + i) % 8 =
          (e.queueHead + Nat.succ i) % 8 := by omega
      rw [hidx]
      rfl

/-- Witness for C8 at a concrete well-formed queue holding one operation. -/
theorem claim8_witness :
    ((NJU3711.write 5 (NJU3711.mkEngine 30 0)).2.queueSize < 8 →
      (NJU3711.enqueueOperation NJU3711_OP_CLEAR 0
          (NJU3711.write 5 (NJU3711.mkEngine 30 0)).2).1 = true ∧
        QueueWF (NJU3711.enqueueOperation NJU3711_OP_CLEAR 0
          (NJU3711.write 5 (NJU3711.mkEngine 30 0)).2).2 ∧
        absQueue (NJU3711.enqueueOperation NJU3711_OP_CLEAR 0
            (NJU3711.write 5 (NJU3711.mkEngine 30 0)).2).2 =
          absQueue (NJU3711.write 5 (NJU3711.mkEngine 30 0)).2 ++
            [(NJU3711_OP_CLEAR, 0)]) ∧
    ((NJU3711.write 5 (NJU3711.mkEngine 30 0)).2.queueSize = 8 →
      NJU3711.enqueueOperation NJU3711_OP_CLEAR 0
          (NJU3711.write 5 (NJU3711.mkEngine 30 0)).2 =
        (false, (NJU3711.write 5 (NJU3711.mkEngine 30 0)).2)) ∧
    ((NJU3711.write 5 (NJU3711.mkEngine 30 0)).2.queueSize = 0 →
      NJU3711.dequeueOperation (NJU3711.write 5 (NJU3711.mkEngine 30 0)).2 =
        (none, (NJU3711.write 5 (NJU3711.mkEngine 30 0)).2)) ∧
    (0 < (NJU3711.write 5 (NJU3711.mkEngine 30 0)).2.queueSize →
      (NJU3711.dequeueOperation (NJU3711.write 5 (NJU3711.mkEngine 30 0)).2).1 =
          (absQueue (NJU3711.write 5 (NJU3711.mkEngine 30 0)).2).head? ∧
        QueueWF (NJU3711.dequeueOperation
          (NJU3711.write 5 (NJU3711.mkEngine 30 0)).2).2 ∧
        absQueue (NJU3711.dequeueOperation
            (NJU3711.write 5 (NJU3711.mkEngine 30 0)).2).2 =
          (absQueue (NJU3711.write 5 (NJU3711.mkEngine 30 0)).2).tail) :=
  claim8_queue_refines_fifo NJU3711_OP_CLEAR 0
    (NJU3711.write 5 (NJU3711.mkEngine 30 0)).2
    ⟨by decide, by decide, by decide, by decide⟩

/-- C5: on a multiplex refresh the next slot index is always computed as
(current + 1) mod 3 in the blanking phase, with no regard to whether that
slot is enabled; in the write phase the byte submitted to the protocol
engine for a disabled slot is the all-zero pattern passed through the
uniform display-mode mapping (applyDisplayMode, identity in ACTIVE_HIGH
mode, bitwise complement in ACTIVE_LOW mode, applied to every slot's
pattern alike); and no phase of multiplexDisplay ever modifies the stored
patterns, decimal-point flags or enable flags of any slot. -/
theorem claim5_refresh_disabled_slot (t : Nat) (m : MEngine) :
    (m.mplexState = MultiplexState.MPLEX_WAIT_BLANKING →
      m.blankingTime ≤ t - m.lastStateTime →
      (MEngine.multiplexDisplay t m).nextDigit = (m.currentDigit + 1) % 3 ∧
        (MEngine.multiplexDisplay t m).mplexState =
          MultiplexState.MPLEX_WRITE_DATA) ∧
    (m.mplexState = MultiplexState.MPLEX_WRITE_DATA →
      NJU3711.isBusy m.base = false →
      m.digitEnabled.getD m.nextDigit false = false →
      MEngine.multiplexDisplay t m =
        { (MEngine.writeBase (MEngine.applyDisplayMode m 0) m).2 with
          mplexState := MultiplexState.MPLEX_WAIT_DATA, lastStateTime := t }) ∧
    ((MEngine.multiplexDisplay t m).digitData = m.digitData ∧
      (MEngine.multiplexDisplay t m).digitDP = m.digitDP ∧
      (MEngine.multiplexDisplay t m).digitEnabled = m.digitEnabled) := by
  refine ⟨?_, ?_, ?_⟩
  · intro hms hb
    simp only [MEngine.multiplexDisplay, hms, if_pos hb]
    constructor <;> trivial
  · intro hms hbusy hdis
    simp only [MEngine.multiplexDisplay, hms, hbusy, hdis, if_pos rfl]
    simp
  · refine ⟨?_, ?_, ?_⟩ <;>
      simp only [MEngine.multiplexDisplay, MEngine.deselectAllDigits,
        MEngine.selectDigit, MEngine.writeBase] <;>
      split <;> (repeat' split) <;> rfl

/-- Witness for C5: the blanking phase at a disabled-slot configuration
computes slot (0+1) mod 3 = 1, the write phase for the disabled slot 1
submits the all-zero pattern through the ACTIVE_LOW mapping, and a refresh
step leaves the stored slot patterns untouched. -/
theorem claim5_witness :
    ((MEngine.multiplexDisplay 1000
        { MEngine.mkMulti 255 0 with
          mplexState := MultiplexState.MPLEX_WAIT_BLANKING }).nextDigit = 1 ∧
      (MEngine.multiplexDisplay 1000
        { MEngine.mkMulti 255 0 with
          mplexState := MultiplexState.MPLEX_WAIT_BLANKING }).mplexState =
        MultiplexState.MPLEX_WRITE_DATA) ∧
    MEngine.multiplexDisplay 1000
        { MEngine.mkMulti 255 0 with
          mplexState := MultiplexState.MPLEX_WRITE_DATA, nextDigit := 1,
          digitEnabled := [true, false, true] } =
      { (MEngine.writeBase (MEngine.applyDisplayMode
          { MEngine.mkMulti 255 0 with
            mplexState := MultiplexState.MPLEX_WRITE_DATA, nextDigit := 1,
            digitEnabled := [true, false, true] } 0)
          { MEngine.mkMulti 255 0 with
            mplexState := MultiplexState.MPLEX_WRITE_DATA, nextDigit := 1,
            digitEnabled := [true, false, true] }).2 with
        mplexState := MultiplexState.MPLEX_WAIT_DATA, lastStateTime := 1000 } ∧
    (MEngine.multiplexDisplay 1000 multiCycleStart).digitData =
      multiCycleStart.digitData := by
  refine ⟨?_, ?_, ?_⟩
  · exact (claim5_refresh_disabled_slot 1000
      { MEngine.mkMulti 255 0 with
        mplexState := MultiplexState.MPLEX_WAIT_BLANKING }).1 (by decide)
      (by decide)
  · exact (claim5_refresh_disabled_slot 1000
      { MEngine.mkMulti 255 0 with
        mplexState := MultiplexState.MPLEX_WRITE_DATA, nextDigit := 1,
        digitEnabled := [true, false, true] }).2.1 (by decide) (by decide)
      (by decide)
  · exact (claim5_refresh_disabled_slot 1000 multiCycleStart).2.2.1

/-- C6: from the configured start state — three slots holding the distinct
patterns 36, 186, 182, all enabled, select lines all inactive — one full
multiplex cycle of 75 update calls spaced 2 ms apart selects each slot
exactly once, in the order 0, 1, 2, while at every state of the run at most
one select line is at its active (LOW) level; the cycle closes with the
multiplex machine back in its idle phase and slot 2 current again. -/
theorem claim6_multiplex_cycle :
    multiCycleStart.digitData = [36, 186, 182] ∧
      multiCycleStart.digitData.Nodup ∧
      multiCycleStart.digitEnabled = [true, true, true] ∧
      mplexTrace 2000 1 75 multiCycleStart = (true, [0, 1, 2]) ∧
      (mplexRun 2000 1 75 multiCycleStart).mplexState =
        MultiplexState.MPLEX_IDLE ∧
      (mplexRun 2000 1 75 multiCycleStart).currentDigit = 2 := by
  refine ⟨by decide, by decide, by decide, by decide, by decide, by decide⟩
